import Mathlib

/-!
Verification of the mybro repository.

Shallow embedding of the dashboard frontend (TypeScript sources under
src/frontend and the unnamed page/component files) and of the voice
orchestration pipeline described by spec.md and src/ARCHITECTURE.md.
The pipeline modules themselves (audio.py, brain.py, pipeline.py,
compute_rules.py, ...) are not part of the sources, so those definitions
are modelled from the spec, as their doc comments state.
-/

set_option linter.unusedVariables false

namespace Mybro

/-! ## Frontend API client (src/frontend/src/api/client.ts) -/

/-- The parsed JSON body an HTTP response resolves to; kept abstract as its
raw text, since the request helper forwards it unchanged. -/
structure Json where
  raw : String
deriving DecidableEq

/-- A fetch Response as the request helper sees it: the ok flag, the numeric
status, the status text, and the value res.json() resolves to. -/
structure FetchResponse where
  ok : Bool
  status : Nat
  statusText : String
  body : Json
deriving DecidableEq

/-- Embedding of the request helper of src/frontend/src/api/client.ts:
when res.ok is false it throws an Error whose message interpolates the
status code and the status text; otherwise it returns the parsed JSON
body. -/
def request (res : FetchResponse) : Except String Json :=
  if !res.ok then Except.error (toString res.status ++ " " ++ res.statusText)
  else Except.ok res.body

/-! ## Tickets kanban page (src/unnamed/part_000) -/

/-- The Ticket fields the kanban page reads (Ticket interface of
client.ts, restricted to the fields the page uses). -/
structure Ticket where
  id : Nat
  project_id : Nat
  title : String
  status : String
  priority : String
  assignee : String
  project_name : Option String
deriving DecidableEq

/-- One kanban column of the COLUMNS constant. -/
structure Column where
  key : String
  label : String
  color : String
deriving DecidableEq

/-- The COLUMNS constant of the Tickets page. -/
def COLUMNS : List Column :=
  [⟨"backlog", "Backlog", "#64748b"⟩,
   ⟨"todo", "Todo", "#3b82f6"⟩,
   ⟨"in_progress", "In Progress", "#f59e0b"⟩,
   ⟨"done", "Done", "#22c55e"⟩]

/-- Per column the page renders tickets.filter(t => t.status === col.key). -/
def colTickets (tickets : List Ticket) (col : Column) : List Ticket :=
  tickets.filter (fun t => t.status == col.key)

/-- The page header shows tickets.length as the total count. -/
def totalCount (tickets : List Ticket) : Nat := tickets.length

/-! ## ProjectTable component (src/unnamed/part_001) -/

/-- A detected server process (Server interface of client.ts, fields the
filter logic can observe). -/
structure Server where
  pid : Nat
  command : String
  port : Nat
deriving DecidableEq

/-- A detected Claude process (ClaudeProcess interface of client.ts). -/
structure ClaudeProcess where
  pid : Nat
  command : String
deriving DecidableEq

/-- Git information of a dashboard project (GitInfo interface of
client.ts); commit_ts is a Unix timestamp in seconds or null. -/
structure GitInfo where
  branch : String
  commit_message : String
  commit_ts : Option Int
  uncommitted : Int
deriving DecidableEq

/-- A full dashboard project row, restricted to the fields ProjectTable's
active and inactive filters read. -/
structure DashboardProjectFull where
  name : String
  git : GitInfo
  servers : List Server
  claude : List ClaudeProcess
deriving DecidableEq

/-- The SEVEN_DAYS constant of ProjectTable, in seconds. -/
def SEVEN_DAYS : Int := 7 * 24 * 3600

/-- commitAge in ProjectTable: p.git.commit_ts ? now - p.git.commit_ts :
Infinity.  none stands for Infinity; a null timestamp, and likewise a zero
one (falsy in JavaScript), yields Infinity. -/
def commitAge (now : Int) (ts : Option Int) : Option Int :=
  match ts with
  | some t => if t == 0 then none else some (now - t)
  | none => none

/-- Comparison commitAge < bound, where none stands for positive Infinity. -/
def ageLt (a : Option Int) (b : Int) : Bool :=
  match a with
  | some x => decide (x < b)
  | none => false

/-- Comparison commitAge >= bound, where none stands for positive Infinity. -/
def ageGe (a : Option Int) (b : Int) : Bool :=
  match a with
  | some x => decide (b ≤ x)
  | none => true

/-- The active filter of ProjectTable: commit younger than seven days, or
some server, or some claude process. -/
def activeFilter (now : Int) (p : DashboardProjectFull) : Bool :=
  ageLt (commitAge now p.git.commit_ts) SEVEN_DAYS
    || decide (0 < p.servers.length) || decide (0 < p.claude.length)

/-- The inactive filter of ProjectTable: commit at least seven days old,
and no servers, and no claude processes. -/
def inactiveFilter (now : Int) (p : DashboardProjectFull) : Bool :=
  ageGe (commitAge now p.git.commit_ts) SEVEN_DAYS
    && decide (p.servers.length = 0) && decide (p.claude.length = 0)

/-! ## Pipeline data model (modelled from the spec; the pipeline sources
are not in the repository snapshot, only the architecture documents) -/

/-- Modelled from the spec: RoutingClass, a tagged variant over trivial,
template-matched and novel. -/
inductive RoutingClass where
  | trivial
  | templateMatched
  | novel
deriving DecidableEq

/-- Modelled from the spec: Decision, the tier output with fields speak,
action, confidence and needs_input. -/
structure Decision where
  speak : Option String
  action : Option String
  confidence : ℚ
  needs_input : Bool
deriving DecidableEq

/-- Modelled from the spec: Exchange, one request/response cycle kept in
the History Store. -/
structure Exchange where
  transcript : String
  tier : RoutingClass
  decision : Decision
  outcome : Option String
deriving DecidableEq

/-- Modelled from the spec: PipelineState, owned by the Orchestrator. -/
inductive PipelineState where
  | IDLE
  | LISTENING
  | TRANSCRIBING
  | THINKING
  | EXECUTING
  | SHUTDOWN
deriving DecidableEq

/-! ## Intent Interpreter (modelled from the spec; brain.py is not in the
snapshot) -/

/-- Modelled from the spec: the raw structured output of the reasoning
boundary, JSON with fields speak, action, confidence and needs_input, any
of which may be missing in a malformed response. -/
structure RawResponse where
  speak : Option String
  action : Option String
  confidence : Option ℚ
  needs_input : Option Bool
deriving DecidableEq

/-- Modelled from the spec: the outcome of one reasoning-service call, a
timeout or a raw structured response. -/
inductive ReasoningOutcome where
  | timeout
  | response (raw : RawResponse)
deriving DecidableEq

/-- Modelled from the spec: validation of a raw response into a Decision.
A response missing a required field, or violating the Decision invariant
that needs_input excludes an action, is malformed structured output. -/
def parseDecision (r : RawResponse) : Option Decision :=
  match r.confidence, r.needs_input with
  | some c, some ni =>
      if ni && r.action.isSome then none
      else some ⟨r.speak, r.action, c, ni⟩
  | _, _ => none

/-- Modelled from the spec: the Decision returned on timeout or on
malformed structured output: needs_input true and no action. -/
def fallbackDecision : Decision :=
  { speak := none, action := none, confidence := 0, needs_input := true }

/-- Modelled from the spec: interpret(transcript, history, routing_class).
The reasoning-service outcome is passed explicitly; interpret is total and
returns fallbackDecision on timeout or malformed structured output, never
a fatal error. -/
def interpret (transcript : String) (history : List Exchange)
    (rc : RoutingClass) (svc : ReasoningOutcome) : Decision :=
  match svc with
  | ReasoningOutcome.timeout => fallbackDecision
  | ReasoningOutcome.response raw =>
      match parseDecision raw with
      | some d => d
      | none => fallbackDecision

/-- Modelled from the spec: the Orchestrator step out of THINKING.  When
the decision needs input, nothing is dispatched and the machine goes back
toward listening (THINKING to IDLE); otherwise a present action is
dispatched to the Executor (THINKING to EXECUTING).  The second component
is the dispatched Executor task, if any. -/
def handleDecision (d : Decision) : PipelineState × Option String :=
  if d.needs_input then (PipelineState.IDLE, none)
  else
    match d.action with
    | some a => (PipelineState.EXECUTING, some a)
    | none => (PipelineState.IDLE, none)

/-! ## Compute Router (modelled from the spec and src/ARCHITECTURE.md;
compute_rules.py is not in the snapshot) -/

/-- Modelled from the spec: ComputeTarget, a tagged variant over the five
execution targets. -/
inductive ComputeTarget where
  | localCpu
  | localGpu
  | neuralAccelerator
  | remoteGpu
  | clientSide
deriving DecidableEq

/-- Modelled from the spec: the CPU execution path, SIMD/parallel or
scalar. -/
inductive CpuPath where
  | scalar
  | simd
deriving DecidableEq

/-- Modelled from the spec: the action profile routed on — estimated
element count, estimated wall-clock duration in seconds, and whether
client-side execution is acceptable. -/
structure ActionProfile where
  elementCount : Nat
  durationS : Nat
  clientOk : Bool
deriving DecidableEq

/-- Modelled from the spec: the routing result — the chosen target, the
CPU path, and whether checkpoint support is required. -/
structure RoutePlan where
  target : ComputeTarget
  cpuPath : CpuPath
  requiresCheckpoint : Bool
deriving DecidableEq

/-- Modelled from the spec and src/ARCHITECTURE.md line 55: the fixed
thresholds, all strict: duration over 30 minutes offloads to remote-gpu;
otherwise element count over 50,000 selects local-gpu over local-cpu; the
CPU path is SIMD over scalar above 1,000 elements; checkpoint support is
required over 10 minutes. -/
def route (p : ActionProfile) : RoutePlan :=
  { target :=
      if 1800 < p.durationS then ComputeTarget.remoteGpu
      else if 50000 < p.elementCount then ComputeTarget.localGpu
      else ComputeTarget.localCpu
    cpuPath := if 1000 < p.elementCount then CpuPath.simd else CpuPath.scalar
    requiresCheckpoint := decide (600 < p.durationS) }

/-! ## Model Router (modelled from the spec) -/

/-- Modelled from the spec: classify(transcript, history).  The pattern
matcher and the known trivial-command patterns and task templates are
passed explicitly; the rules apply in priority order: a trivial pattern
match, then a task-template match, then novel. -/
def classify (matcher : String → String → Bool)
    (trivialPats templates : List String)
    (transcript : String) (history : List Exchange) : RoutingClass :=
  if trivialPats.any (fun pat => matcher pat transcript) then
    RoutingClass.trivial
  else if templates.any (fun pat => matcher pat transcript) then
    RoutingClass.templateMatched
  else
    RoutingClass.novel

/-! ## History Store (modelled from the spec and src/ARCHITECTURE.md) -/

/-- The fixed History Store capacity: 30 exchanges per
src/ARCHITECTURE.md. -/
def HISTORY_CAP : Nat := 30

/-- Modelled from the spec: appending an Exchange to the bounded History
Store; when over capacity the oldest exchanges are evicted first. -/
def historyAppend (h : List Exchange) (e : Exchange) : List Exchange :=
  let h2 := h ++ [e]
  if HISTORY_CAP < h2.length then h2.drop (h2.length - HISTORY_CAP) else h2

/-! ## Queue fabric (modelled from the spec, section 5): utterances flow
through the transcript queue and the action queue, each with a single
consumer taking from the front, and exchanges are appended to the history
in dequeue order. -/

/-- Modelled from the spec: Utterance, the immutable unit of work. -/
structure Utterance where
  id : Nat
  startTs : Nat
  endTs : Nat
  speechConfidence : ℚ
deriving DecidableEq

/-- Modelled from the spec: the queue state of the pipeline — utterances
not yet produced (in close order), the transcript queue, the action
queue, and the History Store contents. -/
structure PipeQueues where
  pending : List Utterance
  transcriptQ : List Utterance
  actionQ : List Utterance
  hist : List Exchange
deriving DecidableEq

/-- Modelled from the spec: one scheduler step.  The producer enqueues the
next closed utterance onto the transcript queue; the transcription worker
moves the front of the transcript queue to the action queue; the
dispatcher consumes the front of the action queue and appends the
resulting Exchange to the history.  Workers may be arbitrarily slow — the
step order is unconstrained — but each queue has a single consumer taking
from the front, so no step reorders. -/
inductive PipeStep (proc : Utterance → Exchange) :
    PipeQueues → PipeQueues → Prop where
  | enq (u : Utterance) (ps tq aq : List Utterance) (h : List Exchange) :
      PipeStep proc ⟨u :: ps, tq, aq, h⟩ ⟨ps, tq ++ [u], aq, h⟩
  | move (u : Utterance) (ps tq aq : List Utterance) (h : List Exchange) :
      PipeStep proc ⟨ps, u :: tq, aq, h⟩ ⟨ps, tq, aq ++ [u], h⟩
  | deq (u : Utterance) (ps tq aq : List Utterance) (h : List Exchange) :
      PipeStep proc ⟨ps, tq, u :: aq, h⟩ ⟨ps, tq, aq, h ++ [proc u]⟩

/-- Reachability by any finite interleaving of pipeline steps. -/
inductive PipeReach (proc : Utterance → Exchange) :
    PipeQueues → PipeQueues → Prop where
  | refl (s : PipeQueues) : PipeReach proc s s
  | tail (s t u : PipeQueues) :
      PipeReach proc s t → PipeStep proc t u → PipeReach proc s u

/-- The initial queue state for a run over a list of utterances given in
close order. -/
def initQueues (us : List Utterance) : PipeQueues := ⟨us, [], [], []⟩

/-- The exchanges of a queue state read in pipeline order: history first,
then the action queue, the transcript queue and the pending utterances. -/
def queueTrace (proc : Utterance → Exchange) (s : PipeQueues) :
    List Exchange :=
  s.hist ++ (s.actionQ.map proc ++ (s.transcriptQ.map proc ++ s.pending.map proc))

/-! ## Theorems -/

/-- C10: the request helper throws an Error whose message is the status
code followed by the status text whenever the response status is not ok,
and then never returns a value; it returns the parsed JSON body exactly
when the response is ok. -/
theorem request_error_on_not_ok (res : FetchResponse) :
    (res.ok = false →
      request res = Except.error (toString res.status ++ " " ++ res.statusText)) ∧
    (res.ok = true → request res = Except.ok res.body) ∧
    ((∃ j, request res = Except.ok j) ↔ res.ok = true) := by
  obtain ⟨ok, status, statusText, body⟩ := res
  cases ok <;> simp [request]

/-- Witness for C10: a 404 response yields the interpolated error, an ok
response yields its body. -/
theorem request_error_on_not_ok_witness :
    request ⟨false, 404, "Not Found", ⟨"ignored"⟩⟩
        = Except.error (toString 404 ++ " " ++ "Not Found") ∧
    request ⟨true, 200, "OK", ⟨"payload"⟩⟩ = Except.ok ⟨"payload"⟩ :=
  ⟨(request_error_on_not_ok ⟨false, 404, "Not Found", ⟨"ignored"⟩⟩).1 rfl,
   (request_error_on_not_ok ⟨true, 200, "OK", ⟨"payload"⟩⟩).2.1 rfl⟩

/-- C8: a ticket is rendered in a kanban column exactly when its status
equals that column's key; a ticket whose status is none of the four
column keys is rendered in no column, while the page total still counts
every ticket of the fetched list. -/
theorem tickets_column_partition (ts : List Ticket) (t : Ticket) :
    (∀ col ∈ COLUMNS, (t ∈ colTickets ts col ↔ t ∈ ts ∧ t.status = col.key)) ∧
    (t.status ∉ COLUMNS.map Column.key →
      ∀ col ∈ COLUMNS, t ∉ colTickets ts col) ∧
    totalCount ts = ts.length := by
  refine ⟨?_, ?_, rfl⟩
  · intro col _
    simp [colTickets, List.mem_filter]
  · intro hst col hcol hmem
    have h1 : t.status = col.key := by
      have := (List.mem_filter.mp hmem).2
      simpa using this
    exact hst (h1 ▸ List.mem_map_of_mem Column.key hcol)

/-- A ticket with the off-column status blocked, for the C8 witness. -/
def blockedTicket : Ticket := ⟨7, 1, "stuck", "blocked", "high", "bro", none⟩

/-- Witness for C8: a blocked ticket appears in no kanban column yet
counts toward the page total. -/
theorem tickets_column_partition_witness :
    (∀ col ∈ COLUMNS, blockedTicket ∉ colTickets [blockedTicket] col) ∧
    totalCount [blockedTicket] = 1 :=
  ⟨(tickets_column_partition [blockedTicket] blockedTicket).2.1 (by decide),
   (tickets_column_partition [blockedTicket] blockedTicket).2.2⟩

/-- The >= comparison against the seven-day bound is the Boolean negation
of the < comparison, also at Infinity. -/
theorem ageGe_eq_not_ageLt (a : Option Int) (b : Int) :
    ageGe a b = !ageLt a b := by
  cases a with
  | none => rfl
  | some x =>
      simp only [ageGe, ageLt, ← decide_not, decide_eq_decide]
      omega

/-- The inactive filter of ProjectTable is the Boolean negation of the
active filter. -/
theorem inactive_eq_not_active (now : Int) (p : DashboardProjectFull) :
    inactiveFilter now p = !(activeFilter now p) := by
  unfold inactiveFilter activeFilter
  rw [ageGe_eq_not_ageLt]
  have h1 : (decide (p.servers.length = 0)) = !decide (0 < p.servers.length) := by
    simp only [← decide_not, decide_eq_decide]
    omega
  have h2 : (decide (p.claude.length = 0)) = !decide (0 < p.claude.length) := by
    simp only [← decide_not, decide_eq_decide]
    omega
  rw [h1, h2]
  cases ageLt (commitAge now p.git.commit_ts) SEVEN_DAYS <;>
    cases decide (0 < p.servers.length) <;>
    cases decide (0 < p.claude.length) <;> rfl

/-- C9: the active and inactive filters of ProjectTable are exact logical
complements — a null commit timestamp counts as infinitely old — so every
project of the dashboard list appears in exactly one of the two rendered
tables. -/
theorem project_filters_partition (now : Int)
    (ps : List DashboardProjectFull) (p : DashboardProjectFull) :
    (inactiveFilter now p = !(activeFilter now p)) ∧
    (p ∈ ps →
      (p ∈ ps.filter (activeFilter now) ↔ p ∉ ps.filter (inactiveFilter now))) ∧
    (ps.filter (activeFilter now)).length
        + (ps.filter (inactiveFilter now)).length = ps.length := by
  refine ⟨inactive_eq_not_active now p, ?_, ?_⟩
  · intro hmem
    simp [List.mem_filter, hmem, inactive_eq_not_active now p]
  · induction ps with
    | nil => rfl
    | cons q qs ih =>
        rw [List.filter_cons, List.filter_cons, inactive_eq_not_active now q]
        cases activeFilter now q <;> simp <;> omega

/-- A project with a null commit timestamp and no processes, for the C9
witness. -/
def nullTsProject : DashboardProjectFull :=
  ⟨"dead-proj", ⟨"main", "old work", none, 0⟩, [], []⟩

/-- Witness for C9: at a fixed time, the null-timestamp project is
classified by exactly one of the two filters. -/
theorem project_filters_partition_witness :
    (inactiveFilter 0 nullTsProject = !(activeFilter 0 nullTsProject)) ∧
    (nullTsProject ∈ ([nullTsProject].filter (activeFilter 0)) ↔
      nullTsProject ∉ ([nullTsProject].filter (inactiveFilter 0))) :=
  ⟨(project_filters_partition 0 [nullTsProject] nullTsProject).1,
   (project_filters_partition 0 [nullTsProject] nullTsProject).2.1
     (List.mem_singleton.mpr rfl)⟩

/-- C2: the Compute Router thresholds are strict: duration over 1800 s
offloads to remote-gpu and exactly 1800 s stays local; below that bound,
over 50,000 elements selects local-gpu and 50,000 or fewer the local-cpu
target; the CPU path is SIMD for more than 1,000 elements and scalar
otherwise; checkpoint support is required exactly over 600 s. -/
theorem route_thresholds (p : ActionProfile) :
    (1800 < p.durationS → (route p).target = ComputeTarget.remoteGpu) ∧
    (p.durationS ≤ 1800 → 50000 < p.elementCount →
      (route p).target = ComputeTarget.localGpu) ∧
    (p.durationS ≤ 1800 → p.elementCount ≤ 50000 →
      (route p).target = ComputeTarget.localCpu) ∧
    (1000 < p.elementCount → p.elementCount ≤ 50000 →
      (route p).cpuPath = CpuPath.simd) ∧
    (p.elementCount ≤ 1000 → (route p).cpuPath = CpuPath.scalar) ∧
    ((route p).requiresCheckpoint = true ↔ 600 < p.durationS) := by
  refine ⟨?_, ?_, ?_, ?_, ?_, ?_⟩
  · intro h
    simp [route, h]
  · intro h1 h2
    have hd : ¬ 1800 < p.durationS := by omega
    simp [route, hd, h2]
  · intro h1 h2
    have hd : ¬ 1800 < p.durationS := by omega
    have he : ¬ 50000 < p.elementCount := by omega
    simp [route, hd, he]
  · intro h1 h2
    simp [route, h1]
  · intro h
    have he : ¬ 1000 < p.elementCount := by omega
    simp [route, he]
  · simp [route]

/-- Witness for C2: the boundary cases of the claim — 50,000 elements is
local-cpu, 50,001 local-gpu, 1800 s stays local, 1801 s goes remote-gpu. -/
theorem route_thresholds_witness :
    (route ⟨50000, 60, false⟩).target = ComputeTarget.localCpu ∧
    (route ⟨50001, 60, false⟩).target = ComputeTarget.localGpu ∧
    (route ⟨1000, 1800, false⟩).target = ComputeTarget.localCpu ∧
    (route ⟨1000, 1801, false⟩).target = ComputeTarget.remoteGpu :=
  ⟨(route_thresholds ⟨50000, 60, false⟩).2.2.1 (by decide) (by decide),
   (route_thresholds ⟨50001, 60, false⟩).2.1 (by decide) (by decide),
   (route_thresholds ⟨1000, 1800, false⟩).2.2.1 (by decide) (by decide),
   (route_thresholds ⟨1000, 1801, false⟩).1 (by decide)⟩

/-- C5: the Compute Router is a pure decision function of its
action_profile: identical inputs yield the identical routing result
across repeated calls. -/
theorem route_deterministic (p q : ActionProfile) (h : p = q) :
    route p = route q := by rw [h]

/-- Witness for C5 at a concrete profile. -/
theorem route_deterministic_witness :
    route ⟨2000, 60, false⟩ = route ⟨2000, 60, false⟩ :=
  route_deterministic ⟨2000, 60, false⟩ ⟨2000, 60, false⟩ rfl

/-- C4: when the reasoning-service call times out or its structured
output is malformed, interpret returns the fallback Decision, whose
needs_input is true and whose action is absent; interpret is total, so no
such call is a fatal error. -/
theorem interpret_recovers (t : String) (hist : List Exchange)
    (rc : RoutingClass) (svc : ReasoningOutcome)
    (h : svc = ReasoningOutcome.timeout ∨
      ∃ raw, svc = ReasoningOutcome.response raw ∧ parseDecision raw = none) :
    interpret t hist rc svc = fallbackDecision ∧
    (interpret t hist rc svc).needs_input = true ∧
    (interpret t hist rc svc).action = none := by
  rcases h with h | ⟨raw, hr, hp⟩
  · subst h
    exact ⟨rfl, rfl, rfl⟩
  · subst hr
    simp [interpret, hp, fallbackDecision]

/-- Witness for C4 at a timed-out reasoning call. -/
theorem interpret_recovers_witness :
    interpret "deploy it" [] RoutingClass.novel ReasoningOutcome.timeout
        = fallbackDecision ∧
    (interpret "deploy it" [] RoutingClass.novel
        ReasoningOutcome.timeout).needs_input = true ∧
    (interpret "deploy it" [] RoutingClass.novel
        ReasoningOutcome.timeout).action = none :=
  interpret_recovers "deploy it" [] RoutingClass.novel
    ReasoningOutcome.timeout (Or.inl rfl)

/-- A validated Decision honours the data-model invariant: needs_input
excludes an action. -/
theorem parse_needs_input_no_action (raw : RawResponse) (d : Decision)
    (hp : parseDecision raw = some d) (hni : d.needs_input = true) :
    d.action = none := by
  unfold parseDecision at hp
  rcases hc : raw.confidence with _ | c <;> rw [hc] at hp
  · cases hp
  rcases hn : raw.needs_input with _ | ni <;> rw [hn] at hp
  · cases hp
  rcases hA : raw.action with _ | a <;> rw [hA] at hp
  · simp at hp
    rw [← hp]
  · cases ni with
    | true => simp at hp
    | false =>
        simp at hp
        rw [← hp] at hni
        simp at hni

/-- C1: any Decision the Intent Interpreter can produce with needs_input
true has no action, and the Orchestrator dispatches no Executor task for
it: handleDecision returns to IDLE with no task, never to EXECUTING. -/
theorem needs_input_no_dispatch (t : String) (hist : List Exchange)
    (rc : RoutingClass) (svc : ReasoningOutcome)
    (h : (interpret t hist rc svc).needs_input = true) :
    (interpret t hist rc svc).action = none ∧
    handleDecision (interpret t hist rc svc) = (PipelineState.IDLE, none) := by
  refine ⟨?_, ?_⟩
  · cases svc with
    | timeout => rfl
    | response raw =>
        cases hp : parseDecision raw with
        | none => simp [interpret, hp, fallbackDecision]
        | some d =>
            have hi : interpret t hist rc (ReasoningOutcome.response raw) = d := by
              simp [interpret, hp]
            rw [hi] at h ⊢
            exact parse_needs_input_no_action raw d hp h
  · simp [handleDecision, h]

/-- Witness for C1 at a timed-out reasoning call, whose Decision needs
input. -/
theorem needs_input_no_dispatch_witness :
    (interpret "come again" [] RoutingClass.trivial
        ReasoningOutcome.timeout).action = none ∧
    handleDecision (interpret "come again" [] RoutingClass.trivial
        ReasoningOutcome.timeout) = (PipelineState.IDLE, none) :=
  needs_input_no_dispatch "come again" [] RoutingClass.trivial
    ReasoningOutcome.timeout rfl

/-- C6: classify applies its rules in priority order: a matching
trivial-command pattern yields trivial; otherwise a matching task
template yields template-matched; otherwise the class is novel. -/
theorem classify_priority (matcher : String → String → Bool)
    (trivialPats templates : List String) (t : String)
    (hist : List Exchange) :
    (trivialPats.any (fun pat => matcher pat t) = true →
      classify matcher trivialPats templates t hist = RoutingClass.trivial) ∧
    (trivialPats.any (fun pat => matcher pat t) = false →
      templates.any (fun pat => matcher pat t) = true →
      classify matcher trivialPats templates t hist
        = RoutingClass.templateMatched) ∧
    (trivialPats.any (fun pat => matcher pat t) = false →
      templates.any (fun pat => matcher pat t) = false →
      classify matcher trivialPats templates t hist = RoutingClass.novel) := by
  refine ⟨fun h1 => ?_, fun h1 h2 => ?_, fun h1 h2 => ?_⟩ <;>
      unfold classify <;> rw [h1]
  · rfl
  · rw [h2]; rfl
  · rw [h2]; rfl

/-- Witness for C6: one transcript per routing class under an
exact-match matcher. -/
theorem classify_priority_witness :
    classify (fun pat s => pat == s) ["status check"] ["build a web app"]
      "status check" [] = RoutingClass.trivial ∧
    classify (fun pat s => pat == s) ["status check"] ["build a web app"]
      "build a web app" [] = RoutingClass.templateMatched ∧
    classify (fun pat s => pat == s) ["status check"] ["build a web app"]
      "make me coffee" [] = RoutingClass.novel :=
  ⟨(classify_priority (fun pat s => pat == s) ["status check"]
      ["build a web app"] "status check" []).1 rfl,
   (classify_priority (fun pat s => pat == s) ["status check"]
      ["build a web app"] "build a web app" []).2.1 rfl rfl,
   (classify_priority (fun pat s => pat == s) ["status check"]
      ["build a web app"] "make me coffee" []).2.2 rfl rfl⟩

/-- C7: the History Store is a bounded FIFO of capacity 30: append keeps
at most the 30 most recent exchanges, appends to the back when below
capacity, evicts exactly the oldest when full, and every retained element
is an unmodified prior element or the appended one. -/
theorem history_bounded_fifo (h : List Exchange) (e : Exchange)
    (hle : h.length ≤ HISTORY_CAP) :
    (historyAppend h e).length ≤ HISTORY_CAP ∧
    (h.length < HISTORY_CAP → historyAppend h e = h ++ [e]) ∧
    (h.length = HISTORY_CAP → historyAppend h e = h.drop 1 ++ [e]) ∧
    (∀ x ∈ historyAppend h e, x ∈ h ∨ x = e) := by
  have hlen : (h ++ [e]).length = h.length + 1 := by simp
  by_cases hlt : h.length < HISTORY_CAP
  · have hcond : ¬ HISTORY_CAP < (h ++ [e]).length := by
      rw [hlen]
      unfold HISTORY_CAP at hlt ⊢
      omega
    unfold historyAppend
    rw [if_neg hcond]
    refine ⟨?_, fun _ => rfl, fun heq => absurd heq (by omega), ?_⟩
    · rw [hlen]; omega
    · intro x hx
      rcases List.mem_append.mp hx with hx | hx
      · exact Or.inl hx
      · exact Or.inr (List.mem_singleton.mp hx)
  · have heq : h.length = HISTORY_CAP := by omega
    have hcond : HISTORY_CAP < (h ++ [e]).length := by
      rw [hlen]
      omega
    unfold historyAppend
    rw [if_pos hcond]
    have hdrop : (h ++ [e]).length - HISTORY_CAP = 1 := by
      rw [hlen, heq]
      omega
    refine ⟨?_, fun hcontra => absurd hcontra hlt, fun _ => ?_, ?_⟩
    · rw [List.length_drop, hlen, heq]
      omega
    · rw [hdrop, List.drop_append_of_le_length (by rw [heq]; decide)]
    · intro x hx
      rcases List.mem_append.mp (List.mem_of_mem_drop hx) with hx | hx
      · exact Or.inl hx
      · exact Or.inr (List.mem_singleton.mp hx)

/-- An exchange for the C7 witness. -/
def statusExchange : Exchange :=
  ⟨"status check", RoutingClass.trivial, fallbackDecision, none⟩

/-- Witness for C7: appending to an empty store stays within capacity and
appends to the back. -/
theorem history_bounded_fifo_witness :
    (historyAppend [] statusExchange).length ≤ HISTORY_CAP ∧
    historyAppend [] statusExchange = [] ++ [statusExchange] :=
  ⟨(history_bounded_fifo [] statusExchange (by decide)).1,
   (history_bounded_fifo [] statusExchange (by decide)).2.1 (by decide)⟩

/-- Every pipeline step leaves the trace of exchanges, read in pipeline
order, unchanged: steps move work between queues but never reorder it. -/
theorem queueTrace_step (proc : Utterance → Exchange) (s t : PipeQueues)
    (hst : PipeStep proc s t) : queueTrace proc t = queueTrace proc s := by
  cases hst <;> simp [queueTrace]

/-- The trace of exchanges is invariant along any reachable run. -/
theorem queueTrace_reach (proc : Utterance → Exchange) (s t : PipeQueues)
    (hr : PipeReach proc s t) : queueTrace proc t = queueTrace proc s := by
  induction hr with
  | refl => rfl
  | tail t u hr hst ih => rw [queueTrace_step proc t u hst, ih]

/-- C3: along every interleaving of pipeline steps from the initial
state — that is, for arbitrary per-utterance transcription and reasoning
latencies — the History Store contents equal the image, in order, of a
prefix of the utterance list in close order: exchanges are appended in
the order their utterances closed. -/
theorem exchanges_in_close_order (proc : Utterance → Exchange)
    (us : List Utterance) (s : PipeQueues)
    (hr : PipeReach proc (initQueues us) s) :
    s.hist = (us.map proc).take s.hist.length := by
  have htr := queueTrace_reach proc _ _ hr
  have hinit : queueTrace proc (initQueues us) = us.map proc := by
    simp [queueTrace, initQueues]
  rw [hinit] at htr
  unfold queueTrace at htr
  rw [← htr]
  exact (List.take_left _ _).symm

/-- An utterance for the C3 witness run. -/
def uttA : Utterance := ⟨0, 0, 10, 1⟩

/-- A second utterance, closing after the first, for the C3 witness run. -/
def uttB : Utterance := ⟨1, 12, 20, 1⟩

/-- The exchange production function of the C3 witness run. -/
def procW (u : Utterance) : Exchange :=
  ⟨toString u.id, RoutingClass.trivial, fallbackDecision, none⟩

/-- A concrete interleaved run over two utterances: the second utterance
is enqueued before the first is dispatched. -/
theorem pipeRunW :
    PipeReach procW (initQueues [uttA, uttB])
      ⟨[], [], [], [procW uttA, procW uttB]⟩ := by
  have r1 : PipeReach procW (initQueues [uttA, uttB])
      ⟨[uttB], [uttA], [], []⟩ :=
    PipeReach.tail _ _ _ (PipeReach.refl _)
      (show PipeStep procW ⟨[uttA, uttB], [], [], []⟩ ⟨[uttB], [uttA], [], []⟩
        from PipeStep.enq uttA [uttB] [] [] [])
  have r2 : PipeReach procW (initQueues [uttA, uttB])
      ⟨[uttB], [], [uttA], []⟩ :=
    PipeReach.tail _ _ _ r1
      (show PipeStep procW ⟨[uttB], [uttA], [], []⟩ ⟨[uttB], [], [uttA], []⟩
        from PipeStep.move uttA [uttB] [] [] [])
  have r3 : PipeReach procW (initQueues [uttA, uttB])
      ⟨[], [uttB], [uttA], []⟩ :=
    PipeReach.tail _ _ _ r2
      (show PipeStep procW ⟨[uttB], [], [uttA], []⟩ ⟨[], [uttB], [uttA], []⟩
        from PipeStep.enq uttB [] [] [uttA] [])
  have r4 : PipeReach procW (initQueues [uttA, uttB])
      ⟨[], [uttB], [], [procW uttA]⟩ :=
    PipeReach.tail _ _ _ r3
      (show PipeStep procW ⟨[], [uttB], [uttA], []⟩ ⟨[], [uttB], [], [procW uttA]⟩
        from PipeStep.deq uttA [] [uttB] [] [])
  have r5 : PipeReach procW (initQueues [uttA, uttB])
      ⟨[], [], [uttB], [procW uttA]⟩ :=
    PipeReach.tail _ _ _ r4
      (show PipeStep procW ⟨[], [uttB], [], [procW uttA]⟩
          ⟨[], [], [uttB], [procW uttA]⟩
        from PipeStep.move uttB [] [] [] [procW uttA])
  exact PipeReach.tail _ _ _ r5
    (show PipeStep procW ⟨[], [], [uttB], [procW uttA]⟩
        ⟨[], [], [], [procW uttA, procW uttB]⟩
      from PipeStep.deq uttB [] [] [] [procW uttA])

/-- Witness for C3: after the concrete interleaved run, the history holds
the exchanges of both utterances in close order. -/
theorem exchanges_in_close_order_witness :
    (PipeQueues.mk [] [] [] [procW uttA, procW uttB]).hist
      = (([uttA, uttB].map procW).take
          (PipeQueues.mk [] [] [] [procW uttA, procW uttB]).hist.length) :=
  exchanges_in_close_order procW [uttA, uttB] _ pipeRunW

end Mybro
